import Mathlib

/-!
# Verification of the ryot import orchestration pipeline

Shallow embedding of `apps/backend/src/importer/mod.rs` (the
`ImporterService` import pipeline) and the relevant parts of
`apps/backend/src/background.rs`.

External collaborators (the `MiscellaneousService` catalog calls and the
source adapters living in the importer submodules) are modelled as an
environment of deterministic call oracles (`Env`); the pipeline itself is
transcribed from the Rust source.  Every external call additionally leaves
an `Effect` in an observable trace so that statements about which writes
happen (and in which order) can be made.

Machine integers: `usize` lengths are modelled as `Nat`; the one place the
Rust code subtracts `usize` values (`import.media.len() -
import.failed_items.len()`) is modelled by `usizeSub`, release-mode
wrapping subtraction modulo 2^64.
-/

/-- Modelled from the spec / `migrator::MediaImportSource` (not under
`src/`): the discriminant of the supported import sources, one per adapter
dispatched in `import_from_source`. -/
inductive MediaImportSource where
  | MediaTracker
  | Goodreads
  | Trakt
  | Movary
  | StoryGraph
  | MediaJson
  deriving Repr, DecidableEq

/-- Modelled from the spec / `migrator::MetadataLot` (not under `src/`):
the kind of media item.  Treated opaquely by the importer. -/
inductive MetadataLot where
  | AudioBook
  | Anime
  | Book
  | Manga
  | Movie
  | Podcast
  | Show
  | VideoGame
  deriving Repr, DecidableEq

/-- `DeployMediaTrackerImportInput` from `importer/mod.rs`. -/
structure DeployMediaTrackerImportInput where
  api_url : String
  api_key : String
  deriving Repr, DecidableEq

/-- `DeployGoodreadsImportInput` from `importer/mod.rs`. -/
structure DeployGoodreadsImportInput where
  rss_url : String
  deriving Repr, DecidableEq

/-- `DeployTraktImportInput` from `importer/mod.rs`. -/
structure DeployTraktImportInput where
  username : String
  deriving Repr, DecidableEq

/-- `DeployMovaryImportInput` from `importer/mod.rs`. -/
structure DeployMovaryImportInput where
  history : String
  ratings : String
  deriving Repr, DecidableEq

/-- `DeployStoryGraphImportInput` from `importer/mod.rs`.  The Rust field
named `export` is called `export_contents` here because `export` is a
Lean keyword. -/
structure DeployStoryGraphImportInput where
  export_contents : String
  deriving Repr, DecidableEq

/-- `DeployMediaJsonImportInput` from `importer/mod.rs`.  The Rust field
named `export` is called `export_contents` here because `export` is a
Lean keyword. -/
structure DeployMediaJsonImportInput where
  export_contents : String
  deriving Repr, DecidableEq

/-- `DeployImportJobInput` from `importer/mod.rs`: a source tag plus one
optional payload per source (only the one matching `source` is supposed to
be populated — a precondition the type does not enforce). -/
structure DeployImportJobInput where
  source : MediaImportSource
  media_tracker : Option DeployMediaTrackerImportInput
  goodreads : Option DeployGoodreadsImportInput
  trakt : Option DeployTraktImportInput
  movary : Option DeployMovaryImportInput
  story_graph : Option DeployStoryGraphImportInput
  media_json : Option DeployMediaJsonImportInput
  deriving Repr, DecidableEq

/-- `ImportFailStep` from `importer/mod.rs`: the step at which importing a
media item can fail. -/
inductive ImportFailStep where
  | ItemDetailsFromSource
  | MediaDetailsFromProvider
  | InputTransformation
  | SeenHistoryConversion
  | ReviewConversion
  deriving Repr, DecidableEq

/-- `ImportFailedItem` from `importer/mod.rs`. -/
structure ImportFailedItem where
  lot : MetadataLot
  step : ImportFailStep
  identifier : String
  error : Option String
  deriving Repr, DecidableEq

/-- `ImportDetails` from `importer/mod.rs` (the summary count). -/
structure ImportDetails where
  total : Nat
  deriving Repr, DecidableEq

/-- Modelled from the spec: timestamps are integer seconds since the
epoch (chrono `DateTimeUtc`); `dateNaive` is the calendar-day projection
`DateTimeUtc::date_naive`, modelled as the day index. -/
def dateNaive (t : Int) : Int := t / 86400

/-- Modelled from the spec / `models::media::ImportOrExportItemSeen` (not
under `src/`): one completed-viewing event, with exactly the fields read
by the reconciliation loop in `importer/mod.rs`. -/
structure SeenEntry where
  ended_on : Option Int
  show_season_number : Option Int
  show_episode_number : Option Int
  podcast_episode_number : Option Int
  deriving Repr, DecidableEq

/-- Modelled from the spec: the nested review object (`text`, `spoiler`,
`date`) carried by a review entry. -/
structure ReviewObj where
  text : Option String
  spoiler : Option Bool
  date : Option Int
  deriving Repr, DecidableEq

/-- Modelled from the spec / `models::media::ImportOrExportItemRating`
(not under `src/`): one rating/review entry, with exactly the fields read
by the reconciliation loop in `importer/mod.rs`.  The numeric rating is
treated opaquely as an `Int`. -/
structure ReviewEntry where
  rating : Option Int
  review : Option ReviewObj
  show_season_number : Option Int
  show_episode_number : Option Int
  podcast_episode_number : Option Int
  deriving Repr, DecidableEq

/-- Modelled from the spec: the fully-filled media record carried by an
`AlreadyFilled` identifier (`Box<MediaDetails>` in Rust); its contents are
only ever handed to `commit_media_internal`, so it is kept opaque. -/
structure MediaDetails where
  title : String
  deriving Repr, DecidableEq

/-- `ImportOrExportItemIdentifier` (not under `src/`, shape visible from
its two uses in `importer/mod.rs`): either an external id that still needs
a provider lookup, or an already-filled record. -/
inductive ImportOrExportItemIdentifier where
  | NeedsDetails (id : String)
  | AlreadyFilled (details : MediaDetails)
  deriving Repr, DecidableEq

/-- `ImportOrExportItem` (not under `src/`, fields visible from their uses
in `importer/mod.rs`): one media item of an adapter's result. -/
structure ImportOrExportItem where
  source_id : String
  lot : MetadataLot
  source : MediaImportSource
  identifier : ImportOrExportItemIdentifier
  seen_history : List SeenEntry
  reviews : List ReviewEntry
  collections : List String
  deriving Repr, DecidableEq

/-- `CreateOrUpdateCollectionInput` (not under `src/`): the importer only
ever populates `name` and leaves the rest defaulted
(`..Default::default()`). -/
structure CreateOrUpdateCollectionInput where
  name : String
  description : Option String := none
  deriving Repr, DecidableEq

/-- `AddMediaToCollection` (not under `src/`, shape visible from its
construction in `importer/mod.rs`). -/
structure AddMediaToCollection where
  collection_name : String
  media_id : Int
  deriving Repr, DecidableEq

/-- `ProgressUpdateInput` (not under `src/`, fields visible from its
construction in `importer/mod.rs`).  `change_state` is always `None`
here. -/
structure ProgressUpdateInput where
  metadata_id : Int
  progress : Option Int
  date : Option Int
  show_season_number : Option Int
  show_episode_number : Option Int
  podcast_episode_number : Option Int
  change_state : Option Unit
  deriving Repr, DecidableEq

/-- `PostReviewInput` (not under `src/`, fields visible from its
construction in `importer/mod.rs`). -/
structure PostReviewInput where
  rating : Option Int
  text : Option String
  spoiler : Option Bool
  date : Option Int
  visibility : Option Unit
  metadata_id : Int
  review_id : Option Int
  show_season_number : Option Int
  show_episode_number : Option Int
  podcast_episode_number : Option Int
  deriving Repr, DecidableEq

/-- `ImportResult` from `importer/mod.rs`: the adapter's normalized
output, whose `failed_items` list is then grown by reconciliation. -/
structure ImportResult where
  collections : List CreateOrUpdateCollectionInput
  media : List ImportOrExportItem
  failed_items : List ImportFailedItem
  deriving Repr, DecidableEq

/-- `ImportResultResponse` from `importer/mod.rs`: the persisted summary.
The Rust field named `import` is called `importDetails` here because
`import` is a Lean keyword. -/
structure ImportResultResponse where
  source : MediaImportSource
  importDetails : ImportDetails
  failed_items : List ImportFailedItem
  deriving Repr, DecidableEq

/-- The metadata row returned by `commit_media` /
`commit_media_internal`; only its `id` is read by the importer. -/
structure Metadata where
  id : Int
  deriving Repr, DecidableEq

/-- `media_import_report::Model` (not under `src/`, shape per the spec's
Report record): one row of the import-report table.  `started_on` is in
seconds. -/
structure ImportReport where
  id : Int
  user_id : Int
  source : MediaImportSource
  started_on : Int
  success : Option Bool
  details : Option ImportResultResponse
  deriving Repr, DecidableEq

/-- One observable external call made by the pipeline, in program order. -/
inductive Effect where
  | startImportJob (user_id : Int) (source : MediaImportSource)
  | commitMedia (lot : MetadataLot) (source : MediaImportSource) (id : String)
  | commitMediaInternal (details : MediaDetails)
  | progressUpdate (input : ProgressUpdateInput) (user_id : Int)
  | postReview (user_id : Int) (input : PostReviewInput)
  | createOrUpdateCollection (user_id : Int) (input : CreateOrUpdateCollectionInput)
  | addMediaToCollection (user_id : Int) (input : AddMediaToCollection)
  | deployRecalculateSummary (user_id : Int)
  | finishImportJob (report : ImportReport) (details : ImportResultResponse)
  deriving Repr, DecidableEq

/-- The environment of external collaborators: one deterministic oracle
per adapter (`media_tracker::import`, …) and per `MiscellaneousService`
call used by `import_from_source`.  Errors carry the human-readable
message (`e.message`). -/
structure Env where
  mediaTrackerImport : DeployMediaTrackerImportInput → Except String ImportResult
  goodreadsImport : DeployGoodreadsImportInput → Except String ImportResult
  traktImport : DeployTraktImportInput → Except String ImportResult
  movaryImport : DeployMovaryImportInput → Except String ImportResult
  storyGraphImport : DeployStoryGraphImportInput → Except String ImportResult
  mediaJsonImport : DeployMediaJsonImportInput → Except String ImportResult
  start_import_job : Int → MediaImportSource → Except String ImportReport
  commit_media : MetadataLot → MediaImportSource → String → Except String Metadata
  commit_media_internal : MediaDetails → Except String Metadata
  progress_update : ProgressUpdateInput → Int → Except String Unit
  post_review : Int → PostReviewInput → Except String Unit
  create_or_update_collection : Int → CreateOrUpdateCollectionInput → Except String Unit
  add_media_to_collection : Int → AddMediaToCollection → Except String Unit
  deploy_recalculate_summary_job : Int → Except String Unit
  finish_import_job : ImportReport → ImportResultResponse → Except String Unit

/-- The adapter dispatch of `import_from_source` (the `match input.source`
block): each arm unwraps the matching optional payload — `none` models the
`Option::unwrap` panic on a missing payload. -/
def dispatchAdapter (env : Env) (input : DeployImportJobInput) :
    Option (Except String ImportResult) :=
  match input.source with
  | MediaImportSource.MediaTracker => input.media_tracker.map env.mediaTrackerImport
  | MediaImportSource.MediaJson => input.media_json.map env.mediaJsonImport
  | MediaImportSource.Goodreads => input.goodreads.map env.goodreadsImport
  | MediaImportSource.Trakt => input.trakt.map env.traktImport
  | MediaImportSource.Movary => input.movary.map env.movaryImport
  | MediaImportSource.StoryGraph => input.story_graph.map env.storyGraphImport

/-- The sort key of the pre-reconciliation reorder:
`m.seen_history.len() + m.reviews.len() + m.collections.len()`. -/
def sortKey (m : ImportOrExportItem) : Nat :=
  m.seen_history.length + m.reviews.length + m.collections.length

/-- Ascending comparison on `sortKey`, the relation fed to the sort. -/
def keyLe (a b : ImportOrExportItem) : Prop := sortKey a ≤ sortKey b

instance : DecidableRel keyLe := fun a b => Nat.decLe (sortKey a) (sortKey b)

instance : IsTotal ImportOrExportItem keyLe := ⟨fun a b => Nat.le_total (sortKey a) (sortKey b)⟩

instance : IsTrans ImportOrExportItem keyLe := ⟨fun _ _ _ => Nat.le_trans⟩

/-- The media reorder of `import_from_source`:
`sorted_unstable_by_key(|m| …).rev()` — an ascending sort by `sortKey`
followed by a reversal, i.e. descending by `sortKey`.  (The Rust sort is
unstable, so the tie order is unspecified; any correct comparison sort is
a faithful model, insertion sort is used here.) -/
def sortMediaDesc (l : List ImportOrExportItem) : List ImportOrExportItem :=
  (List.insertionSort keyLe l).reverse

/-- The `ProgressUpdateInput` built for one seen-history entry: progress
is hard-coded to `100`. -/
def seenInput (metaId : Int) (s : SeenEntry) : ProgressUpdateInput :=
  { metadata_id := metaId
    progress := some 100
    date := s.ended_on.map dateNaive
    show_season_number := s.show_season_number
    show_episode_number := s.show_episode_number
    podcast_episode_number := s.podcast_episode_number
    change_state := none }

/-- The `PostReviewInput` built for one review entry. -/
def reviewInput (metaId : Int) (r : ReviewEntry) : PostReviewInput :=
  { rating := r.rating
    text := r.review.bind (fun rv => rv.text)
    spoiler := r.review.map (fun rv => rv.spoiler.getD false)
    date := (r.review.map (fun rv => rv.date)).join
    visibility := none
    metadata_id := metaId
    review_id := none
    show_season_number := r.show_season_number
    show_episode_number := r.show_episode_number
    podcast_episode_number := r.podcast_episode_number }

/-- The seen-history loop of `import_from_source`: one `progress_update`
call per entry; a failing call appends an `ImportFailedItem` with step
`SeenHistoryConversion` and the loop continues. -/
def processSeen (env : Env) (user_id : Int) (item : ImportOrExportItem) (metaId : Int) :
    List SeenEntry → List Effect × List ImportFailedItem
  | [] => ([], [])
  | s :: rest =>
    let inp := seenInput metaId s
    let tail := processSeen env user_id item metaId rest
    match env.progress_update inp user_id with
    | Except.ok _ => (Effect.progressUpdate inp user_id :: tail.1, tail.2)
    | Except.error e =>
      (Effect.progressUpdate inp user_id :: tail.1,
       { lot := item.lot, step := ImportFailStep.SeenHistoryConversion,
         identifier := item.source_id, error := some e } :: tail.2)

/-- The review loop of `import_from_source`: an entry is skipped when the
review object and the rating are both absent
(`review.review.is_none() && review.rating.is_none()`); otherwise a
`post_review` call is made, and a failing call appends an
`ImportFailedItem` with step `ReviewConversion`. -/
def processReviews (env : Env) (user_id : Int) (item : ImportOrExportItem) (metaId : Int) :
    List ReviewEntry → List Effect × List ImportFailedItem
  | [] => ([], [])
  | r :: rest =>
    if r.review.isNone && r.rating.isNone then
      processReviews env user_id item metaId rest
    else
      let inp := reviewInput metaId r
      let tail := processReviews env user_id item metaId rest
      match env.post_review user_id inp with
      | Except.ok _ => (Effect.postReview user_id inp :: tail.1, tail.2)
      | Except.error e =>
        (Effect.postReview user_id inp :: tail.1,
         { lot := item.lot, step := ImportFailStep.ReviewConversion,
           identifier := item.source_id, error := some e } :: tail.2)

/-- The per-item collection loop of `import_from_source`:
`create_or_update_collection(..).await?` — a failure there propagates and
aborts the whole import — followed by `add_media_to_collection(..).ok()`,
whose failure is discarded. -/
def processItemCollections (env : Env) (user_id : Int) (metaId : Int) :
    List String → List Effect × Except String Unit
  | [] => ([], Except.ok ())
  | c :: cs =>
    let cinput : CreateOrUpdateCollectionInput := { name := c }
    match env.create_or_update_collection user_id cinput with
    | Except.error e => ([Effect.createOrUpdateCollection user_id cinput], Except.error e)
    | Except.ok _ =>
      let ainput : AddMediaToCollection := { collection_name := c, media_id := metaId }
      let tail := processItemCollections env user_id metaId cs
      (Effect.createOrUpdateCollection user_id cinput
         :: Effect.addMediaToCollection user_id ainput :: tail.1,
       tail.2)

/-- The catalog-resolution call for one item: `commit_media` for a
`NeedsDetails` identifier, `commit_media_internal` for an
`AlreadyFilled` one. -/
def commitCall (env : Env) (item : ImportOrExportItem) : Except String Metadata :=
  match item.identifier with
  | ImportOrExportItemIdentifier.NeedsDetails i => env.commit_media item.lot item.source i
  | ImportOrExportItemIdentifier.AlreadyFilled a => env.commit_media_internal a

/-- The observable effect of the catalog-resolution call. -/
def commitEffect (item : ImportOrExportItem) : Effect :=
  match item.identifier with
  | ImportOrExportItemIdentifier.NeedsDetails i => Effect.commitMedia item.lot item.source i
  | ImportOrExportItemIdentifier.AlreadyFilled a => Effect.commitMediaInternal a

/-- One iteration of the media loop of `import_from_source`: resolve the
catalog entry; on failure push a single `MediaDetailsFromProvider` failed
item and `continue` (an `Except.ok` result); on success run the seen,
review and per-item collection sub-loops (the last of which can abort the
import, an `Except.error` result). -/
def processItem (env : Env) (user_id : Int) (item : ImportOrExportItem) :
    List Effect × Except String (List ImportFailedItem) :=
  match commitCall env item with
  | Except.error e =>
    ([commitEffect item],
     Except.ok [{ lot := item.lot, step := ImportFailStep.MediaDetailsFromProvider,
                  identifier := item.source_id, error := some e }])
  | Except.ok metadata =>
    let seenRes := processSeen env user_id item metadata.id item.seen_history
    let revRes := processReviews env user_id item metadata.id item.reviews
    let colRes := processItemCollections env user_id metadata.id item.collections
    (commitEffect item :: (seenRes.1 ++ revRes.1 ++ colRes.1),
     match colRes.2 with
     | Except.error e => Except.error e
     | Except.ok _ => Except.ok (seenRes.2 ++ revRes.2))

/-- The media loop of `import_from_source` over the sorted items: failed
items accumulate in iteration order; an aborting item stops the loop and
propagates its error. -/
def processItems (env : Env) (user_id : Int) :
    List ImportOrExportItem → List Effect × Except String (List ImportFailedItem)
  | [] => ([], Except.ok [])
  | item :: rest =>
    match (processItem env user_id item).2 with
    | Except.error e => ((processItem env user_id item).1, Except.error e)
    | Except.ok fails =>
      ((processItem env user_id item).1 ++ (processItems env user_id rest).1,
       match (processItems env user_id rest).2 with
       | Except.error e => Except.error e
       | Except.ok fails2 => Except.ok (fails ++ fails2))

/-- The top-level collections loop of `import_from_source`
(`create_or_update_collection(..).await?` for each adapter-provided
collection): a failure propagates and aborts the import. -/
def applyTopCollections (env : Env) (user_id : Int) :
    List CreateOrUpdateCollectionInput → List Effect × Except String Unit
  | [] => ([], Except.ok ())
  | c :: cs =>
    match env.create_or_update_collection user_id c with
    | Except.error e => ([Effect.createOrUpdateCollection user_id c], Except.error e)
    | Except.ok _ =>
      let tail := applyTopCollections env user_id cs
      (Effect.createOrUpdateCollection user_id c :: tail.1, tail.2)

/-- Release-mode wrapping `usize` subtraction: `(a - b) mod 2^64` (the
literal is `2 ^ 64`). -/
def usizeSub (a b : Nat) : Nat :=
  (a + 18446744073709551616 - b) % 18446744073709551616

/-- The summary built at the end of `import_from_source`:
`total = import.media.len() - import.failed_items.len()` (a `usize`
subtraction) next to the final failed-item list. -/
def buildResponse (source : MediaImportSource) (mediaLen : Nat)
    (failed : List ImportFailedItem) : ImportResultResponse :=
  { source := source
    importDetails := { total := usizeSub mediaLen failed.length }
    failed_items := failed }

/-- The outcome of one `import_from_source` execution: a panic (an
`unwrap` on `None`), a propagated error (`?`), or a normal return with the
persisted summary; each carries the trace of external calls made. -/
inductive RunResult where
  | panicked : List Effect → RunResult
  | error : String → List Effect → RunResult
  | ok : ImportResultResponse → List Effect → RunResult
  deriving Repr, DecidableEq

/-- The full effect trace of a run that reaches the summary: report
creation, top-level collections, the media loop, the fire-and-forget
summary-recalculation call, and the `finish_import_job` write. -/
def runEffectsOk (env : Env) (user_id : Int) (input : DeployImportJobInput)
    (rj : ImportReport) (imp : ImportResult) (newFails : List ImportFailedItem) :
    List Effect :=
  Effect.startImportJob user_id input.source
    :: (applyTopCollections env user_id imp.collections).1
    ++ (processItems env user_id (sortMediaDesc imp.media)).1
    ++ [Effect.deployRecalculateSummary user_id,
        Effect.finishImportJob rj
          (buildResponse rj.source (sortMediaDesc imp.media).length
            (imp.failed_items ++ newFails))]

/-- `ImporterService::import_from_source`, transcribed from
`importer/mod.rs` lines 225–404: create the report row, dispatch to the
adapter (unwrapping the matching payload), sort the media, create the
top-level collections, run the media loop, fire the summary-recalculation
job (result discarded), and persist the summary. -/
def import_from_source (env : Env) (user_id : Int) (input : DeployImportJobInput) :
    RunResult :=
  match env.start_import_job user_id input.source with
  | Except.error e => RunResult.error e []
  | Except.ok db_import_job =>
    match dispatchAdapter env input with
    | none => RunResult.panicked [Effect.startImportJob user_id input.source]
    | some (Except.error e) =>
      RunResult.error e [Effect.startImportJob user_id input.source]
    | some (Except.ok imp) =>
      match (applyTopCollections env user_id imp.collections).2 with
      | Except.error e =>
        RunResult.error e
          (Effect.startImportJob user_id input.source
            :: (applyTopCollections env user_id imp.collections).1)
      | Except.ok _ =>
        match (processItems env user_id (sortMediaDesc imp.media)).2 with
        | Except.error e =>
          RunResult.error e
            (Effect.startImportJob user_id input.source
              :: (applyTopCollections env user_id imp.collections).1
              ++ (processItems env user_id (sortMediaDesc imp.media)).1)
        | Except.ok newFails =>
          match env.finish_import_job db_import_job
              (buildResponse db_import_job.source (sortMediaDesc imp.media).length
                (imp.failed_items ++ newFails)) with
          | Except.error e =>
            RunResult.error e (runEffectsOk env user_id input db_import_job imp newFails)
          | Except.ok _ =>
            RunResult.ok
              (buildResponse db_import_job.source (sortMediaDesc imp.media).length
                (imp.failed_items ++ newFails))
              (runEffectsOk env user_id input db_import_job imp newFails)

/-- The summary of a run, when the run completed normally. -/
def runResponse (r : RunResult) : Option ImportResultResponse :=
  match r with
  | RunResult.ok d _ => some d
  | _ => none

/-- `ImporterService::invalidate_import_jobs`, one report at a time: a
report with `success` null whose `started_on` is more than 24 hours
(86400 seconds) before `now` is marked failed; everything else is left
untouched. -/
def invalidateOne (now : Int) (r : ImportReport) : ImportReport :=
  if r.success = none then
    if now - r.started_on > 24 * 3600 then { r with success := some false } else r
  else r

/-- `ImporterService::invalidate_import_jobs` over the whole report
table. -/
def invalidate_import_jobs (now : Int) (db : List ImportReport) : List ImportReport :=
  db.map (invalidateOne now)

/-- `true` when the payload variant matching `input.source` is absent —
the precondition violation of the deploy contract. -/
def matchingPayloadAbsent (input : DeployImportJobInput) : Bool :=
  match input.source with
  | MediaImportSource.MediaTracker => input.media_tracker.isNone
  | MediaImportSource.MediaJson => input.media_json.isNone
  | MediaImportSource.Goodreads => input.goodreads.isNone
  | MediaImportSource.Trakt => input.trakt.isNone
  | MediaImportSource.Movary => input.movary.isNone
  | MediaImportSource.StoryGraph => input.story_graph.isNone

/-- Most failed items one media item can contribute to `failed_items`:
one when its catalog resolution fails, otherwise one per seen entry plus
one per review entry. -/
def maxFailContribution (item : ImportOrExportItem) : Nat :=
  max 1 (item.seen_history.length + item.reviews.length)

/-- Upper bound on the failed items contributed by a media list. -/
def failBound : List ImportOrExportItem → Nat
  | [] => 0
  | item :: rest => maxFailContribution item + failBound rest

/-! ## Concrete fixtures used by witnesses and counterexamples -/

/-- An adapter result with nothing in it. -/
def emptyImportResult : ImportResult :=
  { collections := [], media := [], failed_items := [] }

/-- The report row `start_import_job` creates: running (`success` null). -/
def freshReport (u : Int) (s : MediaImportSource) : ImportReport :=
  { id := 1, user_id := u, source := s, started_on := 0, success := none, details := none }

/-- An environment in which every external call succeeds and every
adapter returns an empty result. -/
def okEnv : Env :=
  { mediaTrackerImport := fun _ => Except.ok emptyImportResult
    goodreadsImport := fun _ => Except.ok emptyImportResult
    traktImport := fun _ => Except.ok emptyImportResult
    movaryImport := fun _ => Except.ok emptyImportResult
    storyGraphImport := fun _ => Except.ok emptyImportResult
    mediaJsonImport := fun _ => Except.ok emptyImportResult
    start_import_job := fun u s => Except.ok (freshReport u s)
    commit_media := fun _ _ _ => Except.ok { id := 10 }
    commit_media_internal := fun _ => Except.ok { id := 11 }
    progress_update := fun _ _ => Except.ok ()
    post_review := fun _ _ => Except.ok ()
    create_or_update_collection := fun _ _ => Except.ok ()
    add_media_to_collection := fun _ _ => Except.ok ()
    deploy_recalculate_summary_job := fun _ => Except.ok ()
    finish_import_job := fun _ _ => Except.ok () }

/-- A deploy input for the Trakt source with its payload present. -/
def traktInput : DeployImportJobInput :=
  { source := MediaImportSource.Trakt
    media_tracker := none
    goodreads := none
    trakt := some { username := "alice" }
    movary := none
    story_graph := none
    media_json := none }

/-- A deploy input for the MediaJson source with its payload present. -/
def jsonInput : DeployImportJobInput :=
  { source := MediaImportSource.MediaJson
    media_tracker := none
    goodreads := none
    trakt := none
    movary := none
    story_graph := none
    media_json := some { export_contents := "x" } }

/-- A deploy input whose `source` is MediaTracker but whose
`media_tracker` payload is missing. -/
def noPayloadInput : DeployImportJobInput :=
  { source := MediaImportSource.MediaTracker
    media_tracker := none
    goodreads := none
    trakt := none
    movary := none
    story_graph := none
    media_json := none }

/-- An environment whose Trakt adapter fails. -/
def envAdapterFail : Env :=
  { okEnv with traktImport := fun _ => Except.error "adapter broke" }

/-- A seen entry with no optional data. -/
def seenA : SeenEntry :=
  { ended_on := none, show_season_number := none, show_episode_number := none,
    podcast_episode_number := none }

/-- One media item with two seen-history entries and nothing else. -/
def itemTwoSeen : ImportOrExportItem :=
  { source_id := "m1"
    lot := MetadataLot.Movie
    source := MediaImportSource.MediaJson
    identifier := ImportOrExportItemIdentifier.NeedsDetails "tt1"
    seen_history := [seenA, seenA]
    reviews := []
    collections := [] }

/-- An adapter result holding just `itemTwoSeen`. -/
def impTwoSeen : ImportResult :=
  { collections := [], media := [itemTwoSeen], failed_items := [] }

/-- An environment in which the MediaJson adapter returns `impTwoSeen`
and every `progress_update` call fails: a single media item then yields
two failed items. -/
def envUnderflow : Env :=
  { okEnv with
    mediaJsonImport := fun _ => Except.ok impTwoSeen
    progress_update := fun _ _ => Except.error "progress failed" }

/-- The failed item each failing seen entry of `itemTwoSeen` produces. -/
def seenFailItem : ImportFailedItem :=
  { lot := MetadataLot.Movie, step := ImportFailStep.SeenHistoryConversion,
    identifier := "m1", error := some "progress failed" }

/-- The summary persisted by the `envUnderflow` run: two failed items
against one media item, so the wrapped `usize` subtraction yields
`2^64 - 1`. -/
def respUnderflow : ImportResultResponse :=
  { source := MediaImportSource.MediaJson
    importDetails := { total := 18446744073709551615 }
    failed_items := [seenFailItem, seenFailItem] }

/-- One media item referencing the named collection `"Watchlist"`. -/
def itemWatch : ImportOrExportItem :=
  { source_id := "m2"
    lot := MetadataLot.Movie
    source := MediaImportSource.MediaJson
    identifier := ImportOrExportItemIdentifier.NeedsDetails "tt2"
    seen_history := []
    reviews := []
    collections := ["Watchlist"] }

/-- An adapter result holding just `itemWatch`. -/
def impWatch : ImportResult :=
  { collections := [], media := [itemWatch], failed_items := [] }

/-- An environment in which creating the collection `"Watchlist"`
fails. -/
def envColFail : Env :=
  { okEnv with
    mediaJsonImport := fun _ => Except.ok impWatch
    create_or_update_collection := fun _ c =>
      if c.name = "Watchlist" then Except.error "create failed" else Except.ok () }

/-- An environment in which adding media to a collection fails (e.g. the
media is already a member). -/
def envAddFail : Env :=
  { okEnv with add_media_to_collection := fun _ _ => Except.error "already a member" }

/-- An environment whose `commit_media` (provider lookup) always fails. -/
def envCommitFail : Env :=
  { okEnv with commit_media := fun _ _ _ => Except.error "lookup failed" }

/-- A review entry whose `review` object is present but empty: its text
is absent, yet the importer does not skip it. -/
def contentlessReview : ReviewEntry :=
  { rating := none
    review := some { text := none, spoiler := none, date := none }
    show_season_number := none
    show_episode_number := none
    podcast_episode_number := none }

/-- A review entry with no rating and no review object at all. -/
def absentReview : ReviewEntry :=
  { rating := none
    review := none
    show_season_number := none
    show_episode_number := none
    podcast_episode_number := none }

/-- A plain media item used where only `lot` / `source_id` matter. -/
def itemPlain : ImportOrExportItem :=
  { source_id := "m3"
    lot := MetadataLot.Book
    source := MediaImportSource.MediaJson
    identifier := ImportOrExportItemIdentifier.NeedsDetails "ol3"
    seen_history := []
    reviews := []
    collections := [] }

/-- A second plain media item. -/
def itemPlain2 : ImportOrExportItem :=
  { source_id := "m4"
    lot := MetadataLot.Book
    source := MediaImportSource.MediaJson
    identifier := ImportOrExportItemIdentifier.NeedsDetails "ol4"
    seen_history := []
    reviews := []
    collections := [] }

/-- An adapter result with two plain items and no failures. -/
def impPlain : ImportResult :=
  { collections := [], media := [itemPlain, itemPlain2], failed_items := [] }

/-- An environment in which the MediaJson adapter returns `impPlain` and
everything succeeds. -/
def envPlain : Env :=
  { okEnv with mediaJsonImport := fun _ => Except.ok impPlain }

/-- The summary persisted by the `envPlain` run. -/
def respPlain : ImportResultResponse :=
  { source := MediaImportSource.MediaJson
    importDetails := { total := 2 }
    failed_items := [] }

/-- A stale running report: started at time `0`. -/
def reportStale : ImportReport :=
  { id := 1, user_id := 1, source := MediaImportSource.Trakt,
    started_on := 0, success := none, details := none }

/-- A fresh running report: started 10 hours before `nowW`. -/
def reportFresh : ImportReport :=
  { id := 2, user_id := 1, source := MediaImportSource.Trakt,
    started_on := 288000, success := none, details := none }

/-- A report already finished successfully. -/
def reportDone : ImportReport :=
  { id := 3, user_id := 1, source := MediaImportSource.Trakt,
    started_on := 0, success := some true, details := none }

/-- The sweep time of the invalidation fixtures: 90 hours. -/
def nowW : Int := 324000

/-- The report table of the invalidation fixtures. -/
def dbW : List ImportReport := [reportStale, reportFresh, reportDone]

/-- The stale report after the sweep. -/
def reportStaleOut : ImportReport := { reportStale with success := some false }

/-! ## Helper lemmas -/

theorem sortMediaDesc_length (l : List ImportOrExportItem) :
    (sortMediaDesc l).length = l.length := by
  simp [sortMediaDesc, List.length_insertionSort]

theorem sortMediaDesc_perm (l : List ImportOrExportItem) :
    List.Perm (sortMediaDesc l) l :=
  (List.reverse_perm _).trans (List.perm_insertionSort keyLe l)

theorem sortMediaDesc_pairwise (l : List ImportOrExportItem) :
    (sortMediaDesc l).Pairwise (fun a b => sortKey b ≤ sortKey a) := by
  have h : (List.insertionSort keyLe l).Pairwise keyLe :=
    List.sorted_insertionSort keyLe l
  exact (List.pairwise_reverse.mpr h).imp (fun hab => hab)

theorem run_ok_char (env : Env) (u : Int) (input : DeployImportJobInput)
    (resp : ImportResultResponse)
    (h : runResponse (import_from_source env u input) = some resp) :
    ∃ imp newFails,
      dispatchAdapter env input = some (Except.ok imp)
      ∧ (processItems env u (sortMediaDesc imp.media)).2 = Except.ok newFails
      ∧ resp.failed_items = imp.failed_items ++ newFails
      ∧ resp.importDetails.total = usizeSub imp.media.length resp.failed_items.length := by
  unfold import_from_source at h
  split at h
  · exact absurd h (by simp [runResponse])
  · split at h
    · exact absurd h (by simp [runResponse])
    · exact absurd h (by simp [runResponse])
    · rename_i imp hd
      split at h
      · exact absurd h (by simp [runResponse])
      · split at h
        · exact absurd h (by simp [runResponse])
        · rename_i newFails hpi
          split at h
          · exact absurd h (by simp [runResponse])
          · simp only [runResponse, Option.some.injEq] at h
            refine ⟨imp, newFails, hd, hpi, ?_, ?_⟩
            · rw [← h]
              rfl
            · rw [← h]
              simp [buildResponse, sortMediaDesc_length]

theorem usizeSub_exact (a b : Nat) (hb : b ≤ a) (ha : a < 18446744073709551616) :
    usizeSub a b + b = a := by
  unfold usizeSub
  omega

theorem dispatchAdapter_eq_none (env : Env) (input : DeployImportJobInput)
    (h : matchingPayloadAbsent input = true) :
    dispatchAdapter env input = none := by
  obtain ⟨src, mt, gr, tk, mv, sg, mj⟩ := input
  cases src <;>
    simp_all [matchingPayloadAbsent, dispatchAdapter, Option.isNone_iff_eq_none]

theorem invalidateOne_idem (now : Int) (r : ImportReport) :
    invalidateOne now (invalidateOne now r) = invalidateOne now r := by
  by_cases h1 : r.success = none
  · by_cases h2 : now - r.started_on > 24 * 3600
    · have e1 : invalidateOne now r = { r with success := some false } := by
        unfold invalidateOne
        rw [if_pos h1, if_pos h2]
      rw [e1]
      simp [invalidateOne]
    · have e1 : invalidateOne now r = r := by
        unfold invalidateOne
        rw [if_pos h1, if_neg h2]
      rw [e1]
      exact e1
  · have e1 : invalidateOne now r = r := by
      unfold invalidateOne
      rw [if_neg h1]
    rw [e1]
    exact e1

theorem zip_map_snd {α β : Type} (f : α → β) :
    ∀ (l : List α) (p : α × β), p ∈ l.zip (l.map f) → p.2 = f p.1 := by
  intro l
  induction l with
  | nil => intro p hp; simp at hp
  | cons x xs ih =>
    intro p hp
    simp only [List.map_cons, List.zip_cons_cons, List.mem_cons] at hp
    cases hp with
    | inl h => rw [h]
    | inr h => exact ih p h

theorem processSeen_fail_length (env : Env) (u : Int) (item : ImportOrExportItem)
    (metaId : Int) (ss : List SeenEntry) :
    (processSeen env u item metaId ss).2.length ≤ ss.length := by
  induction ss with
  | nil => simp [processSeen]
  | cons s rest ih =>
    cases henv : env.progress_update (seenInput metaId s) u <;>
      simp [processSeen, henv] <;> omega

theorem processReviews_fail_length (env : Env) (u : Int) (item : ImportOrExportItem)
    (metaId : Int) (rs : List ReviewEntry) :
    (processReviews env u item metaId rs).2.length ≤ rs.length := by
  induction rs with
  | nil => simp [processReviews]
  | cons r rest ih =>
    by_cases hskip : (r.review.isNone && r.rating.isNone) = true
    · simp [processReviews, hskip]
      omega
    · cases henv : env.post_review u (reviewInput metaId r) <;>
        simp [processReviews, hskip, henv] <;> omega

theorem processItem_fail_length (env : Env) (u : Int) (item : ImportOrExportItem)
    (fails : List ImportFailedItem)
    (h : (processItem env u item).2 = Except.ok fails) :
    fails.length ≤ maxFailContribution item := by
  unfold processItem at h
  cases hc : commitCall env item with
  | error e =>
    rw [hc] at h
    simp at h
    rw [← h]
    simp [maxFailContribution]
  | ok metadata =>
    rw [hc] at h
    simp at h
    cases hcol : (processItemCollections env u metadata.id item.collections).2 with
    | error e => rw [hcol] at h; simp at h
    | ok uu =>
      rw [hcol] at h
      simp at h
      rw [← h]
      have h1 := processSeen_fail_length env u item metadata.id item.seen_history
      have h2 := processReviews_fail_length env u item metadata.id item.reviews
      simp [maxFailContribution]
      omega

theorem processItems_fail_length (env : Env) (u : Int) :
    ∀ (items : List ImportOrExportItem) (fails : List ImportFailedItem),
      (processItems env u items).2 = Except.ok fails →
      fails.length ≤ failBound items := by
  intro items
  induction items with
  | nil => intro fails h; simp [processItems] at h; simp [← h, failBound]
  | cons item rest ih =>
    intro fails h
    unfold processItems at h
    cases hh : (processItem env u item).2 with
    | error e => rw [hh] at h; simp at h
    | ok fails1 =>
      rw [hh] at h
      simp at h
      cases ht : (processItems env u rest).2 with
      | error e => rw [ht] at h; simp at h
      | ok fails2 =>
        rw [ht] at h
        simp at h
        rw [← h]
        have hb1 := processItem_fail_length env u item fails1 hh
        have hb2 := ih fails2 ht
        simp [failBound]
        omega

/-! ## Claim theorems -/

/-- C1 (amended): when the dispatched source adapter returns an error,
`import_from_source` propagates that error (`?`) and returns having made
no external call besides the report creation: no reconciliation effects,
and in particular no `finish_import_job` write — nothing persists a
`success = false` report or a synthetic failed item. -/
theorem C1_adapter_error_propagates (env : Env) (u : Int)
    (input : DeployImportJobInput) (rj : ImportReport) (e : String)
    (h1 : env.start_import_job u input.source = Except.ok rj)
    (h2 : dispatchAdapter env input = some (Except.error e)) :
    import_from_source env u input
      = RunResult.error e [Effect.startImportJob u input.source] := by
  unfold import_from_source
  rw [h1, h2]

/-- C1 witness: a concrete adapter failure exercising
`C1_adapter_error_propagates`. -/
theorem C1_witness :
    envAdapterFail.start_import_job 7 traktInput.source
        = Except.ok (freshReport 7 MediaImportSource.Trakt)
    ∧ dispatchAdapter envAdapterFail traktInput = some (Except.error "adapter broke")
    ∧ import_from_source envAdapterFail 7 traktInput
        = RunResult.error "adapter broke" [Effect.startImportJob 7 traktInput.source] :=
  ⟨rfl, rfl,
   C1_adapter_error_propagates envAdapterFail 7 traktInput
     (freshReport 7 MediaImportSource.Trakt) "adapter broke" rfl rfl⟩

/-- C1 counterexample: on an adapter error the run ends as a propagated
error whose trace holds only the report creation — contrary to the claim,
no report with `success = false` and a synthetic failed item is
persisted (no `finishImportJob` effect occurs). -/
theorem C1_counterexample :
    import_from_source envAdapterFail 7 traktInput
      = RunResult.error "adapter broke" [Effect.startImportJob 7 MediaImportSource.Trakt] := rfl

/-- C2 (amended): after a successful run, the persisted summary satisfies
`total + failed_items.length = media.length` provided
`failed_items.length ≤ media.length` (no `usize` underflow) and the media
count fits in a `usize`; without that proviso the subtraction wraps
modulo 2^64 and the equality fails. -/
theorem C2_total_eq (env : Env) (u : Int) (input : DeployImportJobInput)
    (resp : ImportResultResponse) (imp : ImportResult)
    (h : runResponse (import_from_source env u input) = some resp)
    (hd : dispatchAdapter env input = some (Except.ok imp))
    (hle : resp.failed_items.length ≤ imp.media.length)
    (hlt : imp.media.length < 18446744073709551616) :
    resp.importDetails.total + resp.failed_items.length = imp.media.length := by
  obtain ⟨imp2, newFails, hd2, hpi, hfail, htot⟩ := run_ok_char env u input resp h
  rw [hd] at hd2
  have himp : imp = imp2 := by
    injection hd2 with h3
    injection h3
  subst himp
  rw [htot]
  exact usizeSub_exact _ _ hle hlt

/-- C2 witness: a clean two-item run exercising `C2_total_eq`. -/
theorem C2_witness :
    runResponse (import_from_source envPlain 1 jsonInput) = some respPlain
    ∧ dispatchAdapter envPlain jsonInput = some (Except.ok impPlain)
    ∧ respPlain.importDetails.total + respPlain.failed_items.length
        = impPlain.media.length :=
  ⟨rfl, rfl,
   C2_total_eq envPlain 1 jsonInput respPlain impPlain rfl rfl
     (by decide) (by decide)⟩

/-- C2 counterexample: one media item whose two seen entries both fail
produces two failed items; the `usize` subtraction wraps and
`total + failed_items.length` is `2^64 + 1`, not the media count `1`. -/
theorem C2_counterexample :
    dispatchAdapter envUnderflow jsonInput = some (Except.ok impTwoSeen)
    ∧ impTwoSeen.media.length = 1
    ∧ runResponse (import_from_source envUnderflow 1 jsonInput) = some respUnderflow
    ∧ respUnderflow.importDetails.total + respUnderflow.failed_items.length
        ≠ impTwoSeen.media.length :=
  ⟨rfl, rfl, rfl, by decide⟩

/-- C3: when an item's catalog resolution fails, the media loop records
exactly one `MediaDetailsFromProvider` failed item carrying the item's
`source_id` and the error message, makes no history/review/collection
call for that item (its only effect is the commit attempt), and processes
the remaining items unchanged. -/
theorem C3_commit_failure_isolated (env : Env) (u : Int)
    (item : ImportOrExportItem) (rest : List ImportOrExportItem) (e : String)
    (h : commitCall env item = Except.error e) :
    processItems env u (item :: rest)
      = (commitEffect item :: (processItems env u rest).1,
         match (processItems env u rest).2 with
         | Except.error e2 => Except.error e2
         | Except.ok fails2 =>
           Except.ok ({ lot := item.lot, step := ImportFailStep.MediaDetailsFromProvider,
                        identifier := item.source_id, error := some e } :: fails2)) := by
  cases ht : (processItems env u rest).2 with
  | error e2 => simp [processItems, processItem, h, ht]
  | ok fails2 => simp [processItems, processItem, h, ht]

/-- C3 witness: a concrete failing provider lookup exercising
`C3_commit_failure_isolated`. -/
theorem C3_witness :
    commitCall envCommitFail itemPlain = Except.error "lookup failed"
    ∧ processItems envCommitFail 1 (itemPlain :: [])
        = (commitEffect itemPlain :: (processItems envCommitFail 1 []).1,
           match (processItems envCommitFail 1 []).2 with
           | Except.error e2 => Except.error e2
           | Except.ok fails2 =>
             Except.ok ({ lot := itemPlain.lot,
                          step := ImportFailStep.MediaDetailsFromProvider,
                          identifier := itemPlain.source_id,
                          error := some "lookup failed" } :: fails2)) :=
  ⟨rfl, C3_commit_failure_isolated envCommitFail 1 itemPlain [] "lookup failed" rfl⟩

/-- C4 (amended): in the per-item collection loop, only the
`add_media_to_collection` failure is swallowed — when every
`create_or_update_collection` call succeeds the loop succeeds regardless
of the add results (and it never records a failed item); a failing
`create_or_update_collection` call instead propagates its error and
aborts the import. -/
theorem C4_collection_failures (env : Env) (u : Int) (metaId : Int) :
    (∀ cols : List String,
        (∀ c ∈ cols, env.create_or_update_collection u { name := c } = Except.ok ()) →
        (processItemCollections env u metaId cols).2 = Except.ok ())
    ∧ (∀ (c : String) (cs : List String) (e : String),
        env.create_or_update_collection u { name := c } = Except.error e →
        (processItemCollections env u metaId (c :: cs)).2 = Except.error e) := by
  constructor
  · intro cols
    induction cols with
    | nil => intro hall; simp [processItemCollections]
    | cons c cs ih =>
      intro hall
      have hc := hall c (by simp)
      have hrest : ∀ x ∈ cs, env.create_or_update_collection u { name := x } = Except.ok () :=
        fun x hx => hall x (List.mem_cons_of_mem c hx)
      simp [processItemCollections, hc]
      exact ih hrest
  · intro c cs e he
    simp [processItemCollections, he]

/-- C4 witness: an add failure is swallowed while a create failure
propagates, both via `C4_collection_failures`. -/
theorem C4_witness :
    (processItemCollections envAddFail 1 5 ["Watchlist"]).2 = Except.ok ()
    ∧ (processItemCollections envColFail 1 5 ["Watchlist"]).2
        = Except.error "create failed" :=
  ⟨(C4_collection_failures envAddFail 1 5).1 ["Watchlist"]
     (by intro c hc; simp at hc; subst hc; rfl),
   (C4_collection_failures envColFail 1 5).2 "Watchlist" [] "create failed" rfl⟩

/-- C4 counterexample: a failing per-item `create_or_update_collection`
call is not swallowed — it aborts the whole import (the run ends as a
propagated error, with no report persisted). -/
theorem C4_counterexample :
    import_from_source envColFail 1 jsonInput
      = RunResult.error "create failed"
          [Effect.startImportJob 1 MediaImportSource.MediaJson,
           Effect.commitMedia MetadataLot.Movie MediaImportSource.MediaJson "tt2",
           Effect.createOrUpdateCollection 1 { name := "Watchlist" }] := rfl

/-- C5 (amended): when the payload variant matching `source` is absent,
`import_from_source` panics (the Rust `Option::unwrap` on `None`),
crashing the job handler — it does not return a recoverable error
value. -/
theorem C5_missing_payload_panics (env : Env) (u : Int)
    (input : DeployImportJobInput) (rj : ImportReport)
    (h1 : matchingPayloadAbsent input = true)
    (h2 : env.start_import_job u input.source = Except.ok rj) :
    import_from_source env u input
      = RunResult.panicked [Effect.startImportJob u input.source] := by
  unfold import_from_source
  rw [h2, dispatchAdapter_eq_none env input h1]

/-- C5 witness: a concrete missing MediaTracker payload exercising
`C5_missing_payload_panics`. -/
theorem C5_witness :
    matchingPayloadAbsent noPayloadInput = true
    ∧ okEnv.start_import_job 2 noPayloadInput.source
        = Except.ok (freshReport 2 MediaImportSource.MediaTracker)
    ∧ import_from_source okEnv 2 noPayloadInput
        = RunResult.panicked [Effect.startImportJob 2 noPayloadInput.source] :=
  ⟨rfl, rfl,
   C5_missing_payload_panics okEnv 2 noPayloadInput
     (freshReport 2 MediaImportSource.MediaTracker) rfl rfl⟩

/-- C5 counterexample: with the MediaTracker payload absent the execution
path panics; it does not return a `MissingPayload` (or any other) error
value. -/
theorem C5_counterexample :
    import_from_source okEnv 1 noPayloadInput
      = RunResult.panicked [Effect.startImportJob 1 MediaImportSource.MediaTracker] := rfl

/-- C6: the invalidation sweep flips `success` to `false` exactly for the
running reports (`success = null`) started more than 24 hours before
`now`; fresher running reports and reports with a terminal `success` are
untouched; and the sweep is idempotent. -/
theorem C6_invalidate_stale (now : Int) (db : List ImportReport) :
    invalidate_import_jobs now (invalidate_import_jobs now db)
        = invalidate_import_jobs now db
    ∧ ∀ p : ImportReport × ImportReport,
        p ∈ db.zip (invalidate_import_jobs now db) →
        (p.1.success = none → now - p.1.started_on > 24 * 3600 →
          p.2 = { p.1 with success := some false })
        ∧ (p.1.success = none → ¬ now - p.1.started_on > 24 * 3600 → p.2 = p.1)
        ∧ (p.1.success ≠ none → p.2 = p.1) := by
  constructor
  · induction db with
    | nil => rfl
    | cons r rs ih =>
      simp only [invalidate_import_jobs, List.map_cons] at ih ⊢
      rw [invalidateOne_idem, ih]
  · intro p hp
    simp only [invalidate_import_jobs] at hp
    have h2 := zip_map_snd (invalidateOne now) db p hp
    refine ⟨?_, ?_, ?_⟩
    · intro ha hb
      rw [h2]
      unfold invalidateOne
      rw [if_pos ha, if_pos hb]
    · intro ha hb
      rw [h2]
      unfold invalidateOne
      rw [if_pos ha, if_neg hb]
    · intro ha
      rw [h2]
      unfold invalidateOne
      rw [if_neg ha]

/-- C6 witness: the stale fixture report is flipped to `success = false`
by `C6_invalidate_stale`. -/
theorem C6_witness :
    (reportStale, reportStaleOut) ∈ dbW.zip (invalidate_import_jobs nowW dbW)
    ∧ reportStale.success = none
    ∧ nowW - reportStale.started_on > 24 * 3600
    ∧ reportStaleOut = { reportStale with success := some false } :=
  ⟨by decide, rfl, by decide,
   ((C6_invalidate_stale nowW dbW).2 (reportStale, reportStaleOut) (by decide)).1
     rfl (by decide)⟩

/-- C7: the pre-reconciliation reorder is a permutation of the adapter's
media list, sorted descending by
`seen_history.length + reviews.length + collections.length`; in
particular a zero-activity item never precedes an item with activity. -/
theorem C7_sorted_descending (l : List ImportOrExportItem) :
    List.Perm (sortMediaDesc l) l
    ∧ (sortMediaDesc l).Pairwise (fun a b => sortKey b ≤ sortKey a)
    ∧ (sortMediaDesc l).Pairwise (fun a b => sortKey a = 0 → sortKey b = 0) := by
  refine ⟨sortMediaDesc_perm l, sortMediaDesc_pairwise l, ?_⟩
  exact (sortMediaDesc_pairwise l).imp (fun hle ha => Nat.le_zero.mp (ha ▸ hle))

/-- C7 witness: `C7_sorted_descending` at a concrete two-item list. -/
theorem C7_witness :
    List.Perm (sortMediaDesc [itemPlain, itemTwoSeen]) [itemPlain, itemTwoSeen]
    ∧ (sortMediaDesc [itemPlain, itemTwoSeen]).Pairwise
        (fun a b => sortKey b ≤ sortKey a)
    ∧ (sortMediaDesc [itemPlain, itemTwoSeen]).Pairwise
        (fun a b => sortKey a = 0 → sortKey b = 0) :=
  C7_sorted_descending [itemPlain, itemTwoSeen]

/-- C8 (amended): a review entry is skipped silently exactly when its
rating is absent and its `review` object is absent (`review.is_none() &&
rating.is_none()`): the entry contributes no call and no failed item.  An
entry whose `review` object is present but whose text is `None` is not
skipped. -/
theorem C8_review_skip_condition (env : Env) (u : Int)
    (item : ImportOrExportItem) (metaId : Int) (r : ReviewEntry)
    (rest : List ReviewEntry)
    (h1 : r.review = none) (h2 : r.rating = none) :
    processReviews env u item metaId (r :: rest)
      = processReviews env u item metaId rest := by
  simp [processReviews, h1, h2]

/-- C8 witness: a fully-absent review entry is a no-op, via
`C8_review_skip_condition`. -/
theorem C8_witness :
    absentReview.review = none
    ∧ absentReview.rating = none
    ∧ processReviews okEnv 1 itemPlain 5 (absentReview :: [])
        = processReviews okEnv 1 itemPlain 5 [] :=
  ⟨rfl, rfl, C8_review_skip_condition okEnv 1 itemPlain 5 absentReview [] rfl rfl⟩

/-- C8 counterexample: an entry with no rating and no review text — but
with an (empty) review object present — is not skipped: a `post_review`
call is issued for it, contrary to the claim. -/
theorem C8_counterexample :
    contentlessReview.rating = none
    ∧ contentlessReview.review.bind (fun rv => rv.text) = none
    ∧ processReviews okEnv 1 itemPlain 5 [contentlessReview]
        = ([Effect.postReview 1 (reviewInput 5 contentlessReview)], []) :=
  ⟨rfl, rfl, rfl⟩

/-- C9: every seen-history entry of a successfully resolved item issues a
`progress_update` call whose input carries `progress = 100` for the
resolved catalog id; when such a call fails, a `SeenHistoryConversion`
failed item carrying the item's `source_id` and the error message is
appended and the remaining entries are still processed. -/
theorem C9_seen_progress_100 (env : Env) (u : Int)
    (item : ImportOrExportItem) (metaId : Int) (s : SeenEntry)
    (rest : List SeenEntry) (e : String) :
    (processSeen env u item metaId (s :: rest)).1
        = Effect.progressUpdate (seenInput metaId s) u
            :: (processSeen env u item metaId rest).1
    ∧ (seenInput metaId s).progress = some 100
    ∧ (seenInput metaId s).metadata_id = metaId
    ∧ (env.progress_update (seenInput metaId s) u = Except.error e →
        (processSeen env u item metaId (s :: rest)).2
          = { lot := item.lot, step := ImportFailStep.SeenHistoryConversion,
              identifier := item.source_id, error := some e }
              :: (processSeen env u item metaId rest).2) := by
  refine ⟨?_, rfl, rfl, ?_⟩
  · cases henv : env.progress_update (seenInput metaId s) u <;>
      simp [processSeen, henv]
  · intro h
    simp [processSeen, h]

/-- C9 witness: a concrete failing progress update exercising
`C9_seen_progress_100`. -/
theorem C9_witness :
    envUnderflow.progress_update (seenInput 10 seenA) 1
        = Except.error "progress failed"
    ∧ (processSeen envUnderflow 1 itemTwoSeen 10 (seenA :: [])).1
        = Effect.progressUpdate (seenInput 10 seenA) 1
            :: (processSeen envUnderflow 1 itemTwoSeen 10 []).1
    ∧ (seenInput 10 seenA).progress = some 100
    ∧ (processSeen envUnderflow 1 itemTwoSeen 10 (seenA :: [])).2
        = { lot := itemTwoSeen.lot, step := ImportFailStep.SeenHistoryConversion,
            identifier := itemTwoSeen.source_id, error := some "progress failed" }
            :: (processSeen envUnderflow 1 itemTwoSeen 10 []).2 := by
  have h := C9_seen_progress_100 envUnderflow 1 itemTwoSeen 10 seenA [] "progress failed"
  exact ⟨rfl, h.1, h.2.1, h.2.2.2 rfl⟩

/-- C10 (amended): after a run that reaches summary construction, the
failed-item count is bounded by the adapter-provided failures plus, per
media item, `max 1 (seen_history.length + reviews.length)` — a bound that
can exceed `media.length` (one item can contribute one failed item per
failing seen or review entry), so the claimed `failed ≤ media` bound
does not hold and the `usize` subtraction can wrap. -/
theorem C10_failed_items_bound (env : Env) (u : Int)
    (input : DeployImportJobInput) (resp : ImportResultResponse)
    (imp : ImportResult)
    (h : runResponse (import_from_source env u input) = some resp)
    (hd : dispatchAdapter env input = some (Except.ok imp)) :
    resp.failed_items.length
      ≤ imp.failed_items.length + failBound (sortMediaDesc imp.media) := by
  obtain ⟨imp2, newFails, hd2, hpi, hfail, htot⟩ := run_ok_char env u input resp h
  rw [hd] at hd2
  have himp : imp = imp2 := by
    injection hd2 with h3
    injection h3
  subst himp
  rw [hfail]
  have hb := processItems_fail_length env u (sortMediaDesc imp.media) newFails hpi
  simp only [List.length_append]
  omega

/-- C10 witness: the two-failed-seen-entry run exercising
`C10_failed_items_bound`. -/
theorem C10_witness :
    runResponse (import_from_source envUnderflow 3 jsonInput) = some respUnderflow
    ∧ respUnderflow.failed_items.length
        ≤ impTwoSeen.failed_items.length + failBound (sortMediaDesc impTwoSeen.media) :=
  ⟨rfl, C10_failed_items_bound envUnderflow 3 jsonInput respUnderflow impTwoSeen rfl rfl⟩

/-- C10 counterexample: a run reaching summary construction in which the
accumulated failed items (two, one per failing seen entry of a single
item) outnumber the media items (one), so the unsigned subtraction
computing `total` underflows (wraps). -/
theorem C10_counterexample :
    dispatchAdapter envUnderflow jsonInput = some (Except.ok impTwoSeen)
    ∧ runResponse (import_from_source envUnderflow 2 jsonInput) = some respUnderflow
    ∧ impTwoSeen.media.length = 1
    ∧ ¬ respUnderflow.failed_items.length ≤ impTwoSeen.media.length :=
  ⟨rfl, rfl, rfl, by decide⟩
